import Mathlib

/-!
Shallow embedding of the log-anomaly-detection service (src/src/main.rs).

Modelling conventions:
* 32-bit float scores are modelled as rationals. The request path only
  compares scores with the threshold constant; it performs no float
  arithmetic, so any order-embedding of the finite f32 values is faithful
  (NaN scores from the store are not modelled). The f32 literal 0.70 is
  modelled as the rational 7/10.
* Outbound I/O is modelled by an environment holding the responses the
  upstream services would return (`none` = any failure: transport error,
  non-2xx, malformed body), and every function additionally returns the
  list of upstream calls it issued, in order.
* serde_json parsing of the payload fragment is modelled by a small JSON
  parser covering objects with string keys and string values, the only
  shape the source ever formats; `\uXXXX` escapes are not modelled (no
  input in this development contains them).
-/

namespace AnomalyDetection

/-- The `COLLECTION_NAME` constant of main.rs. -/
def COLLECTION_NAME : String := "normal_server_logs_axum"

/-- The `EMBEDDING_MODEL` constant of main.rs. -/
def EMBEDDING_MODEL : String := "bge-m3"

/-- The `VECTOR_SIZE` constant of main.rs (a `u64` in the source). -/
def VECTOR_SIZE : Nat := 1024

/-- f32 similarity scores, modelled as rationals (order-faithful for the
comparisons the code performs). -/
abbrev Score := ℚ

/-- The `ANOMALY_THRESHOLD` constant local to `check_log_handler` (0.70f32,
the rational 7/10). -/
def ANOMALY_THRESHOLD : Score := mkRat 7 10

/-- `struct CheckLogRequest { log_entry: String }`. -/
structure CheckLogRequest where
  log_entry : String
deriving DecidableEq, Repr

/-- `struct AnomalyResponse { is_anomalous: bool, score: f32, log_entry: String }`. -/
structure AnomalyResponse where
  is_anomalous : Bool
  score : Score
  log_entry : String
deriving DecidableEq, Repr

/-- Outcome of the handler body: a 200 JSON verdict, or a 500 with the
literal message the source returns. -/
inductive HandlerResponse where
  | ok (body : AnomalyResponse)
  | internalError (msg : String)
deriving DecidableEq, Repr

/-- HTTP status of a handler outcome. -/
def HandlerResponse.status : HandlerResponse → Nat
  | .ok _ => 200
  | .internalError _ => 500

/-- An outbound call made while serving one request. Search results carry
id and payload as well, but the handler reads only the score, so search
responses are reduced to the list of neighbor scores (descending). -/
inductive UpstreamCall where
  | embed (model : String) (prompt : String)
  | search (collection : String) (vector : List Score) (limit : Nat) (withPayload : Bool)
deriving DecidableEq, Repr

/-- Responses the two upstream services would give to this request.
`none` models any failure of the call. -/
structure RequestEnv where
  embedResp : Option (List Score)
  searchResp : Option (List Score)

/-- `get_embedding`: POSTs to the Ollama endpoint and returns the
`embedding` field of the decoded response verbatim. The source performs
no validation of the vector (in particular no length check). -/
def get_embedding (resp : Option (List Score)) : Except Unit (List Score) :=
  match resp with
  | none => Except.error ()
  | some e => Except.ok e

/-- `check_log_handler`: embed the log entry (500 "Failed to get embedding"
on failure), search top-1 in the collection (500 "Qdrant search failed" on
failure), then `score = 0.0, is_anomalous = true` overwritten from the
first hit if any, with `is_anomalous = false` exactly when
`score >= ANOMALY_THRESHOLD`. -/
def check_log_handler (env : RequestEnv) (payload : CheckLogRequest) :
    HandlerResponse × List UpstreamCall :=
  match get_embedding env.embedResp with
  | Except.error _ =>
      (HandlerResponse.internalError "Failed to get embedding",
       [UpstreamCall.embed EMBEDDING_MODEL payload.log_entry])
  | Except.ok vector =>
    match env.searchResp with
    | none =>
        (HandlerResponse.internalError "Qdrant search failed",
         [UpstreamCall.embed EMBEDDING_MODEL payload.log_entry,
          UpstreamCall.search COLLECTION_NAME vector 1 true])
    | some hits =>
      let calls := [UpstreamCall.embed EMBEDDING_MODEL payload.log_entry,
                    UpstreamCall.search COLLECTION_NAME vector 1 true]
      match hits with
      | [] => (HandlerResponse.ok ⟨true, 0, payload.log_entry⟩, calls)
      | s :: _ =>
          (HandlerResponse.ok
            ⟨if ANOMALY_THRESHOLD ≤ s then false else true, s, payload.log_entry⟩,
           calls)

/-- A JSON value, as serde sees a request body. -/
inductive Json where
  | str (s : String)
  | num (q : ℚ)
  | bool (b : Bool)
  | null
  | arr (xs : List Json)
  | obj (fields : List (String × Json))

/-- serde deserialization of `CheckLogRequest`: the body must be an object
whose `log_entry` member is a string; anything else is a data error. -/
def deserializeCheckLogRequest (body : Json) : Option CheckLogRequest :=
  match body with
  | Json.obj fields =>
    match fields.lookup "log_entry" with
    | some (Json.str s) => some ⟨s⟩
    | _ => none
  | _ => none

/-- Outcome of routing one POST /check_log request. `rejected` is the
`Json` extractor failing before the handler body runs; the concrete
status it sends (422 for data errors, 400 for syntax errors in axum) is
framework code outside this repository. -/
inductive RouteResponse where
  | rejected
  | handled (r : HandlerResponse)
deriving DecidableEq, Repr

/-- The full route: axum deserializes the body into `CheckLogRequest`
(rejecting without running the handler body on failure), then runs
`check_log_handler`. -/
def check_log_route (env : RequestEnv) (body : Json) :
    RouteResponse × List UpstreamCall :=
  match deserializeCheckLogRequest body with
  | none => (RouteResponse.rejected, [])
  | some payload =>
    let r := check_log_handler env payload
    (RouteResponse.handled r.1, r.2)

/-- JSON whitespace (serde accepts space, tab, newline, carriage return
between tokens). -/
def isJsonWs (c : Char) : Bool := c = ' ' ∨ c = '\t' ∨ c = '\n' ∨ c = Char.ofNat 13

/-- Drop leading JSON whitespace. -/
def skipWs : List Char → List Char
  | [] => []
  | c :: rest => if isJsonWs c then skipWs rest else c :: rest

/-- A two-character JSON escape `\e` and the character it denotes
(`\uXXXX` escapes are not modelled; no input here contains them). -/
def unescape : Char → Option Char
  | '"' => some '"'
  | '\\' => some '\\'
  | '/' => some '/'
  | 'b' => some (Char.ofNat 8)
  | 'f' => some (Char.ofNat 12)
  | 'n' => some '\n'
  | 'r' => some (Char.ofNat 13)
  | 't' => some '\t'
  | _ => none

/-- Body of a JSON string literal, after its opening quote: returns the
decoded characters and the input after the closing quote. Raw control
characters (codepoint below 32) are a parse error, as in serde_json. -/
def parseStringBody : List Char → Option (List Char × List Char)
  | [] => none
  | '"' :: rest => some ([], rest)
  | '\\' :: [] => none
  | '\\' :: e :: rest2 =>
    match unescape e, parseStringBody rest2 with
    | some d, some (s, r) => some (d :: s, r)
    | _, _ => none
  | c :: rest =>
    if c.toNat < 32 then none
    else
      match parseStringBody rest with
      | some (s, r) => some (c :: s, r)
      | none => none

/-- Members of a JSON object whose values are strings (the only shape the
source ever builds): called just after the opening brace, returns the
key/value pairs and the input after the closing brace. Fuelled. -/
def parseMembers : Nat → List Char → Option (List (String × String) × List Char)
  | 0, _ => none
  | fuel + 1, l =>
    match skipWs l with
    | '"' :: r0 =>
      match parseStringBody r0 with
      | none => none
      | some (key, r1) =>
        match skipWs r1 with
        | ':' :: r2 =>
          match skipWs r2 with
          | '"' :: r3 =>
            match parseStringBody r3 with
            | none => none
            | some (val, r4) =>
              match skipWs r4 with
              | ',' :: r5 =>
                match parseMembers fuel r5 with
                | some (ms, r6) => some ((String.mk key, String.mk val) :: ms, r6)
                | none => none
              | '\x7d' :: r5 => some ([(String.mk key, String.mk val)], r5)
              | _ => none
          | _ => none
        | _ => none
    | _ => none

/-- serde_json::from_str for a string-valued object: the whole input must
be consumed. -/
def parseStringObject (s : String) : Option (List (String × String)) :=
  match skipWs s.data with
  | '\x7b' :: rest =>
    match skipWs rest with
    | '\x7d' :: r2 => if skipWs r2 = [] then some [] else none
    | _ =>
      match parseMembers (s.data.length + 1) rest with
      | some (ms, r) => if skipWs r = [] then some ms else none
      | none => none
  | _ => none

/-- The string `format!(r#"\x7b\x7b"log": "\x7b\x7d"\x7d\x7d"#, log)`
produces: the raw log spliced, unescaped, into a JSON template. -/
def payloadText (log : String) : String :=
  "\x7b\"log\": \"" ++ log ++ "\"\x7d"

/-- Payload construction of the initializer:
`serde_json::from_str(&format!(...))?` — format the raw log into the JSON
template and parse the result; `none` is the propagated parse error. -/
def payloadFromFormat (log : String) : Option (List (String × String)) :=
  parseStringObject (payloadText log)

/-- The hardcoded `normal_logs` seed corpus, in source order. -/
def normal_logs : List String :=
  ["INFO: User 'admin' logged in successfully from IP 192.168.1.10",
   "INFO: Service 'database-connector' started successfully on port 5432",
   "DEBUG: Cache cleared for user session 'user123'",
   "INFO: GET /api/v1/users request processed in 25ms",
   "INFO: Scheduled backup job 'daily-backup' completed successfully."]

/-- `PointStruct::new(i as u64, vector, payload)`. -/
structure BaselinePoint where
  id : Nat
  vector : List Score
  payload : List (String × String)
deriving DecidableEq, Repr

/-- An outbound call made during baseline initialization. -/
inductive InitCall where
  | deleteCollection (name : String)
  | createCollection (name : String) (size : Nat) (cosine : Bool)
  | embed (model : String) (prompt : String)
  | upsert (name : String) (points : List BaselinePoint) (wait : Bool)
deriving DecidableEq, Repr

/-- Outcomes the external services would give during initialization.
`deleteOk` is the outcome of `delete_collection`; the source discards it
(`let _ = ...`), which the theorems make explicit. `embedResp` gives the
embedding response per prompt (`none` = failure). -/
structure InitEnv where
  deleteOk : Bool
  createOk : Bool
  embedResp : String → Option (List Score)
  upsertOk : Bool

/-- The seed loop of `initialize_qdrant_baseline`: for each log, embed it
(`?` propagates failure), build the payload by format-and-parse (`?`
propagates failure), and collect `PointStruct`s with ids in source order. -/
def buildPoints (embedResp : String → Option (List Score)) :
    List String → Nat → Except Unit (List BaselinePoint) × List InitCall
  | [], _ => (Except.ok [], [])
  | log :: rest, i =>
    match get_embedding (embedResp log) with
    | Except.error _ => (Except.error (), [InitCall.embed EMBEDDING_MODEL log])
    | Except.ok v =>
      match payloadFromFormat log with
      | none => (Except.error (), [InitCall.embed EMBEDDING_MODEL log])
      | some p =>
        let r := buildPoints embedResp rest (i + 1)
        (Except.map (fun pts => BaselinePoint.mk i v p :: pts) r.1,
         InitCall.embed EMBEDDING_MODEL log :: r.2)

/-- `initialize_qdrant_baseline`: delete the collection ignoring the
outcome, create it (size `VECTOR_SIZE`, cosine distance) with failure
fatal, embed and collect the five seeds, then one upsert with
`wait = Some(true)`. -/
def initialize_qdrant_baseline (env : InitEnv) : Except Unit Unit × List InitCall :=
  let trc := [InitCall.deleteCollection COLLECTION_NAME,
              InitCall.createCollection COLLECTION_NAME VECTOR_SIZE true]
  if env.createOk = false then (Except.error (), trc)
  else
    match buildPoints env.embedResp normal_logs 0 with
    | (Except.error _, tr) => (Except.error (), trc ++ tr)
    | (Except.ok points, tr) =>
      ((if env.upsertOk then Except.ok () else Except.error ()),
       trc ++ tr ++ [InitCall.upsert COLLECTION_NAME points true])

/-- An observable event of `main`: an initialization call, binding the
TCP listener, or serving requests. -/
inductive MainEvent where
  | init (c : InitCall)
  | bind (addr : String)
  | serve
deriving DecidableEq, Repr

/-- `main`: run the initializer; `?` propagates its failure (non-zero
exit) before the listener is bound, otherwise bind 127.0.0.1:8080 and
serve. -/
def main (env : InitEnv) : Except Unit Unit × List MainEvent :=
  match initialize_qdrant_baseline env with
  | (Except.error e, tr) => (Except.error e, tr.map MainEvent.init)
  | (Except.ok _, tr) =>
    (Except.ok (), tr.map MainEvent.init ++ [MainEvent.bind "127.0.0.1:8080", MainEvent.serve])

/-- Seed log `i` of the corpus. -/
def seed (i : Nat) : String := normal_logs.getD i ""

/-! ### Helper lemmas -/

/-- If the embedding response is `none` for some log of the batch, the seed
loop ends in the propagated error. -/
theorem buildPoints_error_of_embed_fail (f : String → Option (List Score)) :
    ∀ (logs : List String) (i : Nat), (∃ L ∈ logs, f L = none) →
      (buildPoints f logs i).1 = Except.error () := by
  intro logs
  induction logs with
  | nil => intro i h; simp at h
  | cons log rest ih =>
    intro i h
    obtain ⟨L, hL, hf⟩ := h
    rcases List.mem_cons.mp hL with rfl | hmem
    · simp [buildPoints, get_embedding, hf]
    · cases hfl : f log with
      | none => simp [buildPoints, get_embedding, hfl]
      | some v =>
        cases hp : payloadFromFormat log with
        | none => simp [buildPoints, get_embedding, hfl, hp]
        | some pl =>
          simp [buildPoints, get_embedding, hfl, hp, Except.map, ih (i + 1) ⟨L, hmem, hf⟩]

/-- Every call the seed loop issues is an embedding call. -/
theorem buildPoints_calls_are_embeds (f : String → Option (List Score)) :
    ∀ (logs : List String) (i : Nat) (c : InitCall), c ∈ (buildPoints f logs i).2 →
      ∃ L, c = InitCall.embed EMBEDDING_MODEL L := by
  intro logs
  induction logs with
  | nil => intro i c hc; simp [buildPoints] at hc
  | cons log rest ih =>
    intro i c hc
    cases hfl : f log with
    | none =>
      simp [buildPoints, get_embedding, hfl] at hc
      exact ⟨log, hc⟩
    | some v =>
      cases hp : payloadFromFormat log with
      | none =>
        simp [buildPoints, get_embedding, hfl, hp] at hc
        exact ⟨log, hc⟩
      | some pl =>
        simp [buildPoints, get_embedding, hfl, hp] at hc
        rcases hc with rfl | hc
        · exact ⟨log, rfl⟩
        · exact ih (i + 1) c hc

/-- A run of characters free of quotes, backslashes and control characters
is parsed off a JSON string literal verbatim. -/
theorem parseStringBody_clean (rest : List Char) :
    ∀ (l : List Char), (∀ c ∈ l, c ≠ '"' ∧ c ≠ '\\' ∧ 32 ≤ c.toNat) →
      parseStringBody (l ++ '"' :: rest) = some (l, rest) := by
  intro l
  induction l with
  | nil => intro h; simp [parseStringBody]
  | cons c t ih =>
    intro h
    obtain ⟨h1, h2, h3⟩ := h c (List.mem_cons_self c t)
    have ht := ih fun d hd => h d (List.mem_cons_of_mem c hd)
    simp [parseStringBody, h1, h2, Nat.not_lt.mpr h3, ht]

/-! ### The claims -/

/-- C1: on a successful search with at least one neighbor, the 200 verdict
satisfies `is_anomalous = (score < ANOMALY_THRESHOLD)` with `score` the top
neighbor similarity; at similarity exactly the threshold, `is_anomalous`
is `false`. -/
theorem C1_threshold_law (p : CheckLogRequest) (v : List Score) (s : Score) (rest : List Score) :
    (check_log_handler ⟨some v, some (s :: rest)⟩ p).1 =
      HandlerResponse.ok ⟨decide (s < ANOMALY_THRESHOLD), s, p.log_entry⟩ ∧
    (check_log_handler ⟨some v, some (ANOMALY_THRESHOLD :: rest)⟩ p).1 =
      HandlerResponse.ok ⟨false, ANOMALY_THRESHOLD, p.log_entry⟩ := by
  constructor
  · by_cases h : ANOMALY_THRESHOLD ≤ s
    · simp [check_log_handler, get_embedding, h, not_lt.mpr h]
    · simp [check_log_handler, get_embedding, h, lt_of_not_le h]
  · simp [check_log_handler, get_embedding]

/-- C2: on a successful search returning no neighbor, the 200 verdict has
`score = 0.0` and `is_anomalous = true`. -/
theorem C2_empty_result (p : CheckLogRequest) (v : List Score) :
    (check_log_handler ⟨some v, some []⟩ p).1 =
      HandlerResponse.ok ⟨true, 0, p.log_entry⟩ := rfl

/-- C3 counterexample: `get_embedding` returns a 3-element upstream vector
successfully although `VECTOR_SIZE = 1024`; no shape error is raised. -/
theorem C3_counterexample :
    get_embedding (some [0, 0, 0]) = Except.ok [0, 0, 0] ∧
    ([0, 0, 0] : List Score).length ≠ VECTOR_SIZE :=
  ⟨rfl, by decide⟩

/-- C3 amended: `get_embedding` returns whatever vector the upstream
response carries, of any length, with no validation. -/
theorem C3_no_shape_check (e : List Score) : get_embedding (some e) = Except.ok e := rfl

/-- C4 counterexample: a `log_entry` that is whitespace only (empty after
trimming) is not rejected: the handler body runs, calls the embedding
service and the vector store, and answers 200. -/
theorem C4_counterexample :
    (∀ c ∈ "   ".data, c.isWhitespace) ∧
    (check_log_route ⟨some [0], some [1]⟩ (Json.obj [("log_entry", Json.str "   ")])).2 =
      [UpstreamCall.embed EMBEDDING_MODEL "   ",
       UpstreamCall.search COLLECTION_NAME [0] 1 true] ∧
    (check_log_route ⟨some [0], some [1]⟩ (Json.obj [("log_entry", Json.str "   ")])).1 =
      RouteResponse.handled (HandlerResponse.ok ⟨false, 1, "   "⟩) := by
  refine ⟨by decide, by decide, by decide⟩

/-- C4 amended: a body that does not deserialize into `CheckLogRequest`
(missing or non-string `log_entry`) never reaches the handler body and
triggers no upstream call; but any string `log_entry`, including one empty
after trimming, is accepted and the embedding service is called first. -/
theorem C4_rejection_behavior (env : RequestEnv) (body : Json) (s : String)
    (h : deserializeCheckLogRequest body = none) :
    check_log_route env body = (RouteResponse.rejected, []) ∧
    (check_log_route env (Json.obj [("log_entry", Json.str s)])).2.head? =
      some (UpstreamCall.embed EMBEDDING_MODEL s) := by
  constructor
  · simp [check_log_route, h]
  · obtain ⟨er, sr⟩ := env
    cases er with
    | none => rfl
    | some v =>
      cases sr with
      | none => rfl
      | some hits => cases hits <;> rfl

/-- C4 amended, witness at `body = {}` and a whitespace-only entry. -/
theorem C4_rejection_behavior_witness :
    check_log_route ⟨some [0], some []⟩ (Json.obj []) = (RouteResponse.rejected, []) ∧
    (check_log_route ⟨some [0], some []⟩ (Json.obj [("log_entry", Json.str "   ")])).2.head? =
      some (UpstreamCall.embed EMBEDDING_MODEL "   ") :=
  C4_rejection_behavior ⟨some [0], some []⟩ (Json.obj []) "   " rfl

/-- C5: when the embedding call fails, the handler answers 500 with body
"Failed to get embedding", and the trace holds exactly the one embedding
call — no search reaches the vector store. -/
theorem C5_embedding_failure (p : CheckLogRequest) (sr : Option (List Score)) :
    check_log_handler ⟨none, sr⟩ p =
      (HandlerResponse.internalError "Failed to get embedding",
       [UpstreamCall.embed EMBEDDING_MODEL p.log_entry]) ∧
    (HandlerResponse.internalError "Failed to get embedding").status = 500 ∧
    ∀ c ∈ (check_log_handler ⟨none, sr⟩ p).2,
      ∀ col vec k w, c ≠ UpstreamCall.search col vec k w := by
  refine ⟨rfl, rfl, ?_⟩
  intro c hc col vec k w
  simp [check_log_handler, get_embedding] at hc
  subst hc
  simp

/-- C8: every 200 response echoes the request's `log_entry` unchanged. -/
theorem C8_echo_law (env : RequestEnv) (p : CheckLogRequest) (r : AnomalyResponse)
    (h : (check_log_handler env p).1 = HandlerResponse.ok r) :
    r.log_entry = p.log_entry := by
  obtain ⟨er, sr⟩ := env
  cases er with
  | none => simp [check_log_handler, get_embedding] at h
  | some v =>
    cases sr with
    | none => simp [check_log_handler, get_embedding] at h
    | some hits =>
      cases hits with
      | nil =>
        simp [check_log_handler, get_embedding] at h
        rw [← h]
      | cons s t =>
        simp [check_log_handler, get_embedding] at h
        rw [← h]

/-- C8, witness at a concrete request and empty search result. -/
theorem C8_echo_law_witness :
    (AnomalyResponse.mk true 0 "x").log_entry = (CheckLogRequest.mk "x").log_entry :=
  C8_echo_law ⟨some [0], some []⟩ ⟨"x"⟩ ⟨true, 0, "x"⟩ rfl

/-- C10 counterexample: a store reply with top score 2 is passed through
unchanged — the handler answers 200 with a score outside [-1, 1]. -/
theorem C10_counterexample :
    (check_log_handler ⟨some [0], some [2]⟩ ⟨"x"⟩).1 =
      HandlerResponse.ok ⟨false, 2, "x"⟩ ∧
    ¬ ((2 : Score) ≤ 1) := by
  refine ⟨by decide, by norm_num⟩

/-- C10 amended: with no neighbor the score is 0 (inside [-1, 1]); with a
neighbor the handler returns the store-reported similarity unchanged, with
no range check of its own. -/
theorem C10_score_passthrough (p : CheckLogRequest) (v : List Score) (s : Score)
    (rest : List Score) :
    ((check_log_handler ⟨some v, some []⟩ p).1 = HandlerResponse.ok ⟨true, 0, p.log_entry⟩ ∧
      (-1 : Score) ≤ 0 ∧ (0 : Score) ≤ 1) ∧
    ∃ b, (check_log_handler ⟨some v, some (s :: rest)⟩ p).1 =
      HandlerResponse.ok ⟨b, s, p.log_entry⟩ := by
  exact ⟨⟨rfl, by norm_num, by norm_num⟩, ⟨_, rfl⟩⟩

/-- Parse of the formatted payload template around an escape-free splice. -/
theorem parse_payload_chars (s : String) (l : List Char)
    (hd : s.data = '\x7b' :: '"' :: 'l' :: 'o' :: 'g' :: '"' :: ':' :: ' ' :: '"' ::
      (l ++ ['"', '\x7d']))
    (h : ∀ c ∈ l, c ≠ '"' ∧ c ≠ '\\' ∧ 32 ≤ c.toNat) :
    parseStringObject s = some [("log", String.mk l)] := by
  have hb : parseStringBody (l ++ '"' :: ['\x7d']) = some (l, ['\x7d']) :=
    parseStringBody_clean ['\x7d'] l h
  simp [parseStringObject, hd, parseMembers, skipWs, isJsonWs, parseStringBody, hb]

/-- C6: with any delete outcome (it is discarded) and all other calls
succeeding, the initializer emits, in order: one delete, one create with
dimension `VECTOR_SIZE` and cosine distance, one embedding call per seed in
source order, and exactly one upsert with `wait = true` whose points carry
the zero-based ids and payloads mapping "log" to the seed text; and a
failed create is fatal, stopping before any embedding. -/
theorem C6_baseline_sequence (delOk up : Bool) (f : String → List Score) :
    initialize_qdrant_baseline ⟨delOk, true, fun s => some (f s), true⟩ =
      (Except.ok (),
       [InitCall.deleteCollection COLLECTION_NAME,
        InitCall.createCollection COLLECTION_NAME VECTOR_SIZE true,
        InitCall.embed EMBEDDING_MODEL (seed 0),
        InitCall.embed EMBEDDING_MODEL (seed 1),
        InitCall.embed EMBEDDING_MODEL (seed 2),
        InitCall.embed EMBEDDING_MODEL (seed 3),
        InitCall.embed EMBEDDING_MODEL (seed 4),
        InitCall.upsert COLLECTION_NAME
          [⟨0, f (seed 0), [("log", seed 0)]⟩,
           ⟨1, f (seed 1), [("log", seed 1)]⟩,
           ⟨2, f (seed 2), [("log", seed 2)]⟩,
           ⟨3, f (seed 3), [("log", seed 3)]⟩,
           ⟨4, f (seed 4), [("log", seed 4)]⟩] true]) ∧
    initialize_qdrant_baseline ⟨delOk, false, fun s => some (f s), up⟩ =
      (Except.error (),
       [InitCall.deleteCollection COLLECTION_NAME,
        InitCall.createCollection COLLECTION_NAME VECTOR_SIZE true]) :=
  ⟨rfl, rfl⟩

/-- C7: if embedding fails for a seed (and the create succeeded), the
initializer ends in an error, no upsert appears in its trace, and `main`
fails before emitting a bind or serve event. -/
theorem C7_embed_failure_aborts (env : InitEnv)
    (hc : env.createOk = true)
    (h : ∃ L ∈ normal_logs, env.embedResp L = none) :
    (initialize_qdrant_baseline env).1 = Except.error () ∧
    (∀ c ∈ (initialize_qdrant_baseline env).2, ∀ n pts w, c ≠ InitCall.upsert n pts w) ∧
    (main env).1 = Except.error () ∧
    (∀ e ∈ (main env).2, (∀ a, e ≠ MainEvent.bind a) ∧ e ≠ MainEvent.serve) := by
  have herr := buildPoints_error_of_embed_fail env.embedResp normal_logs 0 h
  have hinit : initialize_qdrant_baseline env =
      (Except.error (),
       [InitCall.deleteCollection COLLECTION_NAME,
        InitCall.createCollection COLLECTION_NAME VECTOR_SIZE true] ++
       (buildPoints env.embedResp normal_logs 0).2) := by
    rcases hbp : buildPoints env.embedResp normal_logs 0 with ⟨r, tr⟩
    rw [hbp] at herr
    simp only at herr
    subst herr
    simp [initialize_qdrant_baseline, hc, hbp]
  refine ⟨by simp [hinit], ?_, by simp [main, hinit], ?_⟩
  · intro c hcm n pts w
    rw [hinit] at hcm
    rcases List.mem_append.mp hcm with h1 | h1
    · simp at h1
      rcases h1 with rfl | rfl <;> simp
    · obtain ⟨L, rfl⟩ := buildPoints_calls_are_embeds env.embedResp normal_logs 0 c h1
      simp
  · intro e he
    simp [main, hinit] at he
    rcases he with rfl | rfl | ⟨c2, hc2, rfl⟩ <;>
      exact ⟨fun a => by simp, by simp⟩

/-- C7, witness: embedding always failing aborts before bind and serve. -/
theorem C7_embed_failure_aborts_witness :
    (initialize_qdrant_baseline ⟨true, true, fun _ => none, true⟩).1 = Except.error () ∧
    (∀ c ∈ (initialize_qdrant_baseline ⟨true, true, fun _ => none, true⟩).2,
      ∀ n pts w, c ≠ InitCall.upsert n pts w) ∧
    (main ⟨true, true, fun _ => none, true⟩).1 = Except.error () ∧
    (∀ e ∈ (main ⟨true, true, fun _ => none, true⟩).2,
      (∀ a, e ≠ MainEvent.bind a) ∧ e ≠ MainEvent.serve) :=
  C7_embed_failure_aborts ⟨true, true, fun _ => none, true⟩ rfl
    ⟨"INFO: User 'admin' logged in successfully from IP 192.168.1.10",
     List.mem_cons_self _ _, rfl⟩

/-- C9 counterexample: payload construction formats the raw log into a
JSON fragment; a log containing a quote makes the parse fail, and the seed
loop aborts on such a log instead of producing a payload. -/
theorem C9_counterexample :
    payloadFromFormat "a\"b" = none ∧
    (buildPoints (fun _ => some [0]) ["a\"b"] 0).1 = Except.error () :=
  ⟨rfl, rfl⟩

/-- C9 amended: the payload is built by splicing the raw log into a JSON
template and re-parsing it, not by an escaping builder; it succeeds and
maps "log" to the exact text for logs free of characters needing JSON
escaping — as all five hardcoded seeds are — but not in general. -/
theorem C9_payload_via_format (log : String)
    (h : ∀ c ∈ log.data, c ≠ '"' ∧ c ≠ '\\' ∧ 32 ≤ c.toNat) :
    payloadFromFormat log = some [("log", log)] ∧
    ∀ L ∈ normal_logs, payloadFromFormat L = some [("log", L)] := by
  constructor
  · have hdata : (payloadText log).data =
        '\x7b' :: '"' :: 'l' :: 'o' :: 'g' :: '"' :: ':' :: ' ' :: '"' ::
          (log.data ++ ['"', '\x7d']) := by
      simp only [payloadText, String.data_append, List.append_assoc]
      rfl
    show parseStringObject (payloadText log) = _
    exact (parse_payload_chars (payloadText log) log.data hdata h).trans rfl
  · decide

/-- C9 amended, witness at an escape-free log. -/
theorem C9_payload_via_format_witness :
    payloadFromFormat "abc" = some [("log", "abc")] ∧
    ∀ L ∈ normal_logs, payloadFromFormat L = some [("log", L)] :=
  C9_payload_via_format "abc" (by decide)

end AnomalyDetection
